import Mathlib

/-!
Verification of the poundCake auto-remediation engine core: a shallow
embedding of the alert tracking models, the handler registry resolution
pipeline, the YAML configuration handler, the state-store lock primitive
and the remediation engine's alert processing algorithm, together with
theorems settling the specification's claims about them.

Python dictionaries with string keys are modelled as association lists
with unique keys: lookup returns the first binding, insertion replaces an
existing binding in place (preserving its position, as Python dict update
does) or appends a fresh one.
-/

/-- Lookup in an association list (Python `d.get(key)`). -/
def dictGet {α : Type} : List (String × α) → String → Option α
  | [], _ => none
  | (k, v) :: rest, key => if k = key then some v else dictGet rest key

/-- Insertion into an association list (Python `d[key] = val`): replaces an
existing binding in place, else appends. -/
def dictInsert {α : Type} : List (String × α) → String → α → List (String × α)
  | [], key, val => [(key, val)]
  | (k, v) :: rest, key, val =>
      if k = key then (k, val) :: rest else (k, v) :: dictInsert rest key val

/-- Removal from an association list (Python `del d[key]`, Redis `DEL`). -/
def dictErase {α : Type} : List (String × α) → String → List (String × α)
  | [], _ => []
  | (k, v) :: rest, key => if k = key then rest else (k, v) :: dictErase rest key

/-- Python `d.update(other)`: fold the bindings of `other` into `d`. -/
def dictUpdate {α : Type} (d other : List (String × α)) : List (String × α) :=
  other.foldl (fun acc kv => dictInsert acc kv.1 kv.2) d

theorem dictGet_dictInsert_self {α : Type} (d : List (String × α)) (k : String) (v : α) :
    dictGet (dictInsert d k v) k = some v := by
  induction d with
  | nil => simp [dictInsert, dictGet]
  | cons hd tl ih =>
      by_cases h : hd.1 = k
      · simp [dictInsert, dictGet, h]
      · simp [dictInsert, dictGet, h, ih]

theorem dictGet_dictInsert_ne {α : Type} (d : List (String × α)) (k k2 : String) (v : α)
    (h : k ≠ k2) : dictGet (dictInsert d k v) k2 = dictGet d k2 := by
  induction d with
  | nil => simp [dictInsert, dictGet, h]
  | cons hd tl ih =>
      by_cases h1 : hd.1 = k
      · simp [dictInsert, dictGet, h1, h]
      · by_cases h2 : hd.1 = k2
        · simp [dictInsert, dictGet, h1, h2, Ne.symm h]
        · simp [dictInsert, dictGet, h1, h2, ih]

theorem dictGet_dictInsert_cases {α : Type} (d : List (String × α)) (k k2 : String)
    (v : α) (t : α) (h : dictGet (dictInsert d k v) k2 = some t) :
    t = v ∨ dictGet d k2 = some t := by
  by_cases hk : k = k2
  · subst hk
    rw [dictGet_dictInsert_self] at h
    exact Or.inl (Option.some_injective _ h).symm
  · rw [dictGet_dictInsert_ne d k k2 v hk] at h
    exact Or.inr h

theorem dictErase_dictInsert_of_none {α : Type} (d : List (String × α)) (k : String) (v : α)
    (h : dictGet d k = none) : dictErase (dictInsert d k v) k = d := by
  induction d with
  | nil => simp [dictInsert, dictErase]
  | cons hd tl ih =>
      by_cases h1 : hd.1 = k
      · simp [dictGet, h1] at h
      · simp [dictGet, h1] at h
        simp [dictInsert, dictErase, h1, ih h]

/-! ## Alert model (`models/alerts.py`) -/

/-- Alert status from Alertmanager. -/
inductive AlertStatus
  | FIRING
  | RESOLVED
  deriving DecidableEq, Repr

/-- Individual alert from Alertmanager. -/
structure Alert where
  status : AlertStatus
  labels : List (String × String)
  annotations : List (String × String)
  starts_at : Nat
  ends_at : Nat
  generator_url : String
  fingerprint : String
  deriving DecidableEq, Repr

/-- Python `labels.get("alertname", "unknown")`. -/
def Alert.alertname (a : Alert) : String :=
  (dictGet a.labels "alertname").getD "unknown"

/-- Python `labels.get("severity", "unknown")`. -/
def Alert.severity (a : Alert) : String :=
  (dictGet a.labels "severity").getD "unknown"

/-- Python `labels.get("instance", "unknown")`. -/
def Alert.instance_of (a : Alert) : String :=
  (dictGet a.labels "instance").getD "unknown"

/-! ## Tracking model (`models/tracking.py`) -/

/-- Status of a tracked alert through its lifecycle. -/
inductive AlertTrackingStatus
  | RECEIVED
  | PENDING
  | REMEDIATING
  | REMEDIATED
  | RESOLVED
  deriving DecidableEq, Repr

/-- Record of a single remediation action attempt. Timestamps are modelled
as abstract clock ticks (`Nat`). -/
structure RemediationAttempt where
  action_name : String
  stackstorm_action : String
  status : String
  started_at : Nat
  completed_at : Option Nat
  execution_id : Option String
  error : Option String
  deriving DecidableEq, Repr

/-- A tracked alert with full lifecycle state. -/
structure TrackedAlert where
  fingerprint : String
  alertname : String
  instance_of : Option String
  severity : Option String
  labels : List (String × String)
  annotations : List (String × String)
  status : AlertTrackingStatus
  received_at : Nat
  status_changed_at : Nat
  resolved_at : Option Nat
  remediation_attempts : List RemediationAttempt
  total_attempts : Nat
  successful_attempts : Nat
  failed_attempts : Nat
  processed_by : Option String
  last_error : Option String
  deriving DecidableEq, Repr

/-- Source `TrackedAlert.add_remediation_attempt`: append the attempt and update
the counters (`success` and `failed` statuses bump their counters; any
other status only bumps the total). -/
def TrackedAlert.add_remediation_attempt (t : TrackedAlert)
    (attempt : RemediationAttempt) : TrackedAlert :=
  { t with
    remediation_attempts := t.remediation_attempts ++ [attempt]
    total_attempts := t.total_attempts + 1
    successful_attempts :=
      if attempt.status = "success" then t.successful_attempts + 1
      else t.successful_attempts
    failed_attempts :=
      if attempt.status = "success" then t.failed_attempts
      else if attempt.status = "failed" then t.failed_attempts + 1
      else t.failed_attempts }

/-- Source `TrackedAlert.update_status`: set the status and its change timestamp;
stamp `resolved_at` exactly when the new status is RESOLVED. -/
def TrackedAlert.update_status (t : TrackedAlert) (new_status : AlertTrackingStatus)
    (timestamp : Nat) : TrackedAlert :=
  { t with
    status := new_status
    status_changed_at := timestamp
    resolved_at :=
      if new_status = AlertTrackingStatus.RESOLVED then some timestamp
      else t.resolved_at }

/-! ## Remediation model (`models/remediation.py`) -/

/-- Status of a remediation action. -/
inductive RemediationStatus
  | PENDING
  | RUNNING
  | SUCCESS
  | FAILED
  | SKIPPED
  deriving DecidableEq, Repr

/-- A parameter value (Python `Any` in the parameter dictionaries): a
string, an integer, or a nested string table (the label/annotation maps). -/
inductive PValue
  | str (s : String)
  | num (n : Int)
  | table (m : List (String × String))
  deriving DecidableEq, Repr

/-- Definition of a remediation action to execute. -/
structure RemediationAction where
  name : String
  description : String
  stackstorm_action : String
  parameters : List (String × PValue)
  timeout : Int
  retry_count : Int
  retry_delay : Int
  deriving DecidableEq, Repr

/-- Result of a remediation action execution. -/
structure RemediationResult where
  alert_fingerprint : String
  alert_name : String
  action_name : String
  status : RemediationStatus
  started_at : Nat
  completed_at : Option Nat
  stackstorm_execution_id : Option String
  output : List (String × String)
  error : Option String
  deriving DecidableEq, Repr

/-! ## Handler configuration (`handlers/base.py`, `handlers/yaml_config.py`)

A YAML mapping entry `{handler: ..., actions: [...]}` is modelled as
`MappingConfig`; each per-action spec as `ActionConfig`. Optional YAML keys
become `Option` fields (`none` = key absent, so the Python `.get` defaults
apply). The `conditions.severity` value may be a single string or a list,
mirrored by `SeverityCond`. An absent mapping is `none`; a present mapping
is treated as truthy (a literally empty YAML mapping dict is falsy in
Python, but then the default yaml_config handler rejects it anyway because
it has no actions, so the resolved action set is the same). -/

/-- The `severity` condition value: a plain string or a list of strings. -/
inductive SeverityCond
  | single (s : String)
  | multiple (ss : List String)
  deriving DecidableEq, Repr

/-- The Python normalization `if isinstance(allowed, str): allowed = [allowed]`. -/
def SeverityCond.allowed : SeverityCond → List String
  | .single s => [s]
  | .multiple ss => ss

/-- Optional `conditions` block of one configured action. -/
structure Conditions where
  severity : Option SeverityCond
  labels : Option (List (String × String))
  has_labels : Option (List String)
  deriving DecidableEq, Repr

/-- One entry of a mapping's `actions` list. `action` is the only required
key (`action_config["action"]`); the rest use `.get` defaults. -/
structure ActionConfig where
  name : Option String
  action : String
  description : Option String
  parameters : List (String × PValue)
  timeout : Option Int
  retry_count : Option Int
  retry_delay : Option Int
  conditions : Option Conditions
  deriving DecidableEq, Repr

/-- A static alert-name mapping entry. -/
structure MappingConfig where
  handler : Option String
  actions : List ActionConfig
  deriving DecidableEq, Repr

/-- The empty config dict `{}` passed to probed handlers. -/
def empty_config : MappingConfig :=
  { handler := none, actions := [] }

/-- Context passed to handlers (`HandlerContext`); the StackStorm client
handle is omitted because no handler decision logic reads it. -/
structure HandlerContext where
  alert : Alert
  config : MappingConfig

/-- Source `BaseHandler.build_parameters`: the standard parameter set assembled
from the alert context. -/
def build_parameters (ctx : HandlerContext) : List (String × PValue) :=
  [("alert_name", PValue.str ctx.alert.alertname),
   ("alert_labels", PValue.table ctx.alert.labels),
   ("alert_annotations", PValue.table ctx.alert.annotations),
   ("instance", PValue.str ctx.alert.instance_of),
   ("severity", PValue.str ctx.alert.severity)]

/-- Template substitution on a single parameter value
(`YAMLConfigHandler._apply_templates` loop body): string values get the
`\x7b\x7balertname\x7d\x7d`, `\x7b\x7binstance\x7d\x7d`,
`\x7b\x7bseverity\x7d\x7d`, `\x7b\x7blabels.*\x7d\x7d` and
`\x7b\x7bannotations.*\x7d\x7d` placeholders replaced; other values pass
through unchanged. -/
def template_value (alert : Alert) : PValue → PValue
  | PValue.str s =>
      let s := s.replace "\x7b\x7balertname\x7d\x7d" alert.alertname
      let s := s.replace "\x7b\x7binstance\x7d\x7d" alert.instance_of
      let s := s.replace "\x7b\x7bseverity\x7d\x7d" alert.severity
      let s := alert.labels.foldl
        (fun acc kv => acc.replace ("\x7b\x7blabels." ++ kv.1 ++ "\x7d\x7d") kv.2) s
      let s := alert.annotations.foldl
        (fun acc kv => acc.replace ("\x7b\x7bannotations." ++ kv.1 ++ "\x7d\x7d") kv.2) s
      PValue.str s
  | v => v

/-- Source `YAMLConfigHandler._apply_templates`: rebuild the parameter dict with
every value templated (keys are unique, so this is a pointwise map). -/
def apply_templates (alert : Alert) (ps : List (String × PValue)) : List (String × PValue) :=
  ps.map (fun kv => (kv.1, template_value alert kv.2))

theorem dictGet_apply_templates (alert : Alert) (ps : List (String × PValue)) (k : String) :
    dictGet (apply_templates alert ps) k = (dictGet ps k).map (template_value alert) := by
  induction ps with
  | nil => simp [apply_templates, dictGet]
  | cons hd tl ih =>
      by_cases h : hd.1 = k
      · simp [apply_templates, dictGet, h]
      · simpa [apply_templates, dictGet, h] using ih

/-- Source `YAMLConfigHandler._check_conditions`. An absent `conditions` key and a
present-but-empty one both succeed (in the model the empty dict is the
all-`none` record, for which every check falls through to `True`, matching
the Python early return on a falsy dict). -/
def check_conditions (alert : Alert) (ac : ActionConfig) : Bool :=
  match ac.conditions with
  | none => true
  | some conds =>
      (match conds.severity with
       | some sc => sc.allowed.contains alert.severity
       | none => true) &&
      (match conds.labels with
       | some kvs => kvs.all (fun kv => dictGet alert.labels kv.1 == some kv.2)
       | none => true) &&
      (match conds.has_labels with
       | some ks => ks.all (fun k => (dictGet alert.labels k).isSome)
       | none => true)

/-- Building one `RemediationAction` from a config entry
(`YAMLConfigHandler.get_actions` loop body): configured parameters first,
then the standard context parameters merged over them, then templates. -/
def yaml_build_action (ctx : HandlerContext) (ac : ActionConfig) : RemediationAction :=
  let parameters := dictUpdate ac.parameters (build_parameters ctx)
  let parameters := apply_templates ctx.alert parameters
  { name := ac.name.getD ac.action
    description := ac.description.getD ""
    stackstorm_action := ac.action
    parameters := parameters
    timeout := ac.timeout.getD 300
    retry_count := ac.retry_count.getD 0
    retry_delay := ac.retry_delay.getD 30 }

/-- The `YAMLConfigHandler.get_actions` loop over the configured action
entries: entries with unmet conditions are skipped (`continue`), the rest
are built and appended in order. -/
def yaml_actions_from (ctx : HandlerContext) : List ActionConfig → List RemediationAction
  | [] => []
  | ac :: rest =>
      if check_conditions ctx.alert ac then
        yaml_build_action ctx ac :: yaml_actions_from ctx rest
      else
        yaml_actions_from ctx rest

/-- Source `YAMLConfigHandler.get_actions`. -/
def yaml_get_actions (ctx : HandlerContext) : List RemediationAction :=
  yaml_actions_from ctx ctx.config.actions

/-- Source `YAMLConfigHandler.can_handle`: `bool(config and config.get("actions"))`,
i.e. the config carries a non-empty actions list. -/
def yaml_can_handle (ctx : HandlerContext) : Bool :=
  !ctx.config.actions.isEmpty

/-! ## Handlers and registry (`handlers/base.py`, `handlers/registry.py`)

A handler is its capability record: a unique name plus the `can_handle` /
`get_actions` decision functions. The registry keeps handlers in a
name-keyed dict, modelled as a list in registration order with in-place
overwrite on duplicate names (Python dict semantics). -/

/-- A remediation handler (`BaseHandler` capability set). -/
structure Handler where
  name : String
  can_handle : HandlerContext → Bool
  get_actions : HandlerContext → List RemediationAction

/-- The `YAMLConfigHandler` instance. -/
def YAMLConfigHandler : Handler :=
  { name := "yaml_config"
    can_handle := yaml_can_handle
    get_actions := yaml_get_actions }

/-- Dict-style insertion of a handler keyed by its name (overwrite keeps
the original registration position, as a Python dict does). -/
def handlers_insert : List Handler → Handler → List Handler
  | [], h => [h]
  | h0 :: rest, h =>
      if h0.name = h.name then h :: rest else h0 :: handlers_insert rest h

/-- The handler registry: registered handlers (registration order) and the
loaded static alert-name mappings. -/
structure HandlerRegistry where
  handlers : List Handler
  mappings : List (String × MappingConfig)

/-- Source `HandlerRegistry.register` (duplicate names overwrite, with a warning). -/
def HandlerRegistry.register (reg : HandlerRegistry) (h : Handler) : HandlerRegistry :=
  { reg with handlers := handlers_insert reg.handlers h }

/-- Source `HandlerRegistry.get_handler`. -/
def HandlerRegistry.get_handler (reg : HandlerRegistry) (name : String) : Option Handler :=
  reg.handlers.find? (fun h => h.name == name)

/-- Source `HandlerRegistry.get_mapping`. -/
def HandlerRegistry.get_mapping (reg : HandlerRegistry) (alert_name : String) :
    Option MappingConfig :=
  dictGet reg.mappings alert_name

/-- The probe loop of `HandlerRegistry.find_handlers`: every registered
handler except `yaml_config` (already checked through the mapping) is
probed with an empty config and collected when it reports `can_handle`. -/
def probe_handlers (alert : Alert) : List Handler → List (Handler × MappingConfig)
  | [] => []
  | h :: rest =>
      if h.name = "yaml_config" then probe_handlers alert rest
      else if h.can_handle { alert := alert, config := empty_config } then
        (h, empty_config) :: probe_handlers alert rest
      else probe_handlers alert rest

/-- Source `HandlerRegistry.find_handlers`: the mapping-declared handler first
(if a mapping exists, the declared handler resolves, and it reports
`can_handle` on the mapping config), then every probed handler. -/
def HandlerRegistry.find_handlers (reg : HandlerRegistry) (alert : Alert) :
    List (Handler × MappingConfig) :=
  let mapped :=
    match reg.get_mapping alert.alertname with
    | some mapping =>
        match reg.get_handler (mapping.handler.getD "yaml_config") with
        | some h =>
            if h.can_handle { alert := alert, config := mapping } then [(h, mapping)]
            else []
        | none => []
    | none => []
  mapped ++ probe_handlers alert reg.handlers

/-- Source `HandlerRegistry.get_actions_for_alert`: extend an accumulator with
each found handler's actions, in order. -/
def HandlerRegistry.get_actions_for_alert (reg : HandlerRegistry) (alert : Alert) :
    List RemediationAction :=
  (reg.find_handlers alert).foldl
    (fun acc hc => acc ++ hc.1.get_actions { alert := alert, config := hc.2 }) []

/-- Modelled from the spec's words (§4.2 resolution order), for comparison
with the source-derived `HandlerRegistry.get_actions_for_alert`: the
mapped handler's actions (only if a mapping exists and that handler
reports `can_handle`), followed by the concatenated actions of every other
registered handler that reports `can_handle` on an empty config, in
registration order, skipping the configuration-driven handler, with no
deduplication. -/
def spec_resolution_actions (reg : HandlerRegistry) (alert : Alert) :
    List RemediationAction :=
  let mapped_actions :=
    match reg.get_mapping alert.alertname with
    | some mapping =>
        match reg.get_handler (mapping.handler.getD "yaml_config") with
        | some h =>
            if h.can_handle { alert := alert, config := mapping } then
              h.get_actions { alert := alert, config := mapping }
            else []
        | none => []
    | none => []
  let probed_actions :=
    reg.handlers.foldr
      (fun h acc =>
        if h.name ≠ "yaml_config" ∧
            h.can_handle { alert := alert, config := empty_config } = true then
          h.get_actions { alert := alert, config := empty_config } ++ acc
        else acc)
      []
  mapped_actions ++ probed_actions

theorem foldl_extend_actions (alert : Alert) (l : List (Handler × MappingConfig))
    (acc : List RemediationAction) :
    l.foldl (fun acc hc => acc ++ hc.1.get_actions { alert := alert, config := hc.2 }) acc =
      acc ++ l.foldr
        (fun hc r => hc.1.get_actions { alert := alert, config := hc.2 } ++ r) [] := by
  induction l generalizing acc with
  | nil => simp
  | cons hd tl ih => simp [List.foldl_cons, List.foldr_cons, ih]

theorem probe_handlers_actions (alert : Alert) (hs : List Handler) :
    (probe_handlers alert hs).foldr
        (fun hc r => hc.1.get_actions { alert := alert, config := hc.2 } ++ r) [] =
      hs.foldr
        (fun h acc =>
          if h.name ≠ "yaml_config" ∧
              h.can_handle { alert := alert, config := empty_config } = true then
            h.get_actions { alert := alert, config := empty_config } ++ acc
          else acc)
        [] := by
  induction hs with
  | nil => simp [probe_handlers]
  | cons hd tl ih =>
      by_cases h1 : hd.name = "yaml_config"
      · simp [probe_handlers, h1, ih]
      · by_cases h2 : hd.can_handle { alert := alert, config := empty_config } = true
        · simp [probe_handlers, h1, h2, ih]
        · simp [probe_handlers, h1, h2, ih]

/-! ## In-memory state store (`state/memory.py`)

The store holds the tracked-alert dict and the set of currently held lock
keys (`_active_locks`; the per-key `asyncio.Lock` objects carry the same
information here, since a key is locked exactly when its lock is held).
The scoped `lock` context manager is modelled by explicit enter/exit
functions plus `with_lock`, which runs a guarded body that may finish with
a value or an exception — the exit runs either way (`finally`). -/

structure MemoryStateStore where
  alerts : List (String × TrackedAlert)
  locks : List String
  deriving DecidableEq, Repr

def MemoryStateStore.get_alert (st : MemoryStateStore) (fingerprint : String) :
    Option TrackedAlert :=
  dictGet st.alerts fingerprint

def MemoryStateStore.save_alert (st : MemoryStateStore) (alert : TrackedAlert) :
    MemoryStateStore :=
  { st with alerts := dictInsert st.alerts alert.fingerprint alert }

def MemoryStateStore.is_locked (st : MemoryStateStore) (key : String) : Bool :=
  st.locks.contains key

/-- Entering the `lock(key)` scope: non-blocking try-acquire — the caller
acquires exactly when the key is currently unlocked. -/
def lock_enter (st : MemoryStateStore) (key : String) : Bool × MemoryStateStore :=
  if st.locks.contains key then (false, st)
  else (true, { st with locks := key :: st.locks })

/-- Leaving the `lock(key)` scope (the `finally` block): release only if
this caller acquired. -/
def lock_exit (st : MemoryStateStore) (key : String) (acquired : Bool) : MemoryStateStore :=
  if acquired then { st with locks := st.locks.erase key } else st

/-- The scoped lock: the guarded body receives the holder flag and the
alert table, and ends in a value or an exception (`Except.error`); the
release in `finally` runs unconditionally on scope exit. -/
def with_lock {E α : Type} (st : MemoryStateStore) (key : String)
    (body : Bool → List (String × TrackedAlert) →
      List (String × TrackedAlert) × Except E α) :
    MemoryStateStore × Except E α :=
  let (acquired, st1) := lock_enter st key
  let (alerts2, out) := body acquired st1.alerts
  (lock_exit { st1 with alerts := alerts2 } key acquired, out)

/-! ## Redis state store lock (`state/redis_store.py`)

Only the lock primitive is modelled (the claims quantify over it). Redis
keys are prefix-partitioned (`poundcake:alert:` vs `poundcake:lock:`), so
the lock keyspace is its own table; the stored value is the acquisition
timestamp string. `SET NX EX` acquires exactly when the key is absent;
the `finally` block deletes the key only if this caller acquired it. -/

structure RedisStateStore where
  alert_kv : List (String × String)
  lock_kv : List (String × String)
  deriving DecidableEq, Repr

def redis_lock_key (key : String) : String :=
  "poundcake:lock:" ++ key

/-- Redis `SET key value NX EX timeout` on the lock keyspace. -/
def redis_lock_enter (st : RedisStateStore) (key now_iso : String) :
    Bool × RedisStateStore :=
  match dictGet st.lock_kv (redis_lock_key key) with
  | some _ => (false, st)
  | none =>
      (true, { st with lock_kv := dictInsert st.lock_kv (redis_lock_key key) now_iso })

/-- The `finally` block: `DEL` the lock key only when acquired. -/
def redis_lock_exit (st : RedisStateStore) (key : String) (acquired : Bool) :
    RedisStateStore :=
  if acquired then { st with lock_kv := dictErase st.lock_kv (redis_lock_key key) }
  else st

/-- The scoped Redis lock; the guarded body may touch the alert keyspace
and ends in a value or an exception. -/
def redis_with_lock {E α : Type} (st : RedisStateStore) (key now_iso : String)
    (body : Bool → List (String × String) → List (String × String) × Except E α) :
    RedisStateStore × Except E α :=
  let (acquired, st1) := redis_lock_enter st key now_iso
  let (alerts2, out) := body acquired st1.alert_kv
  (redis_lock_exit { st1 with alert_kv := alerts2 } key acquired, out)

/-! ## StackStorm job client model (`stackstorm.py`)

The engine consumes the client as a capability: `execute_action` submits
and yields an execution id (or raises), `wait_for_execution` polls until a
terminal record (or raises, e.g. on poll timeout). `ExecErr.stackstorm`
models a raised `StackStormError`; `ExecErr.other` any other exception. -/

inductive ExecErr
  | stackstorm (msg : String)
  | other (msg : String)
  deriving DecidableEq, Repr

/-- The error text the engine records for a caught exception. -/
def ExecErr.text : ExecErr → String
  | .stackstorm msg => msg
  | .other msg => "Unexpected error: " ++ msg

/-- Terminal execution record returned by `wait_for_execution` (its
`status` field, plus the optional `result.stderr` payload). -/
structure ExecutionRecord where
  status : String
  stderr : Option String
  result_output : List (String × String)
  deriving DecidableEq, Repr

/-- The job client as consumed by the engine. -/
structure StackStormClient where
  execute_action : RemediationAction → Except ExecErr String
  wait_for_execution : String → Int → Except ExecErr ExecutionRecord

/-! ## Remediation engine (`engine.py`)

Timestamps: every `datetime.now(timezone.utc)` call is one tick of an
abstract strictly-increasing clock, threaded as a counter; a tick yields
the current instant and advances the clock. The engine environment
bundles the registry, the job client (reached through the registry in the
source) and this instance's identity. -/

def tick (clock : Nat) : Nat × Nat :=
  (clock, clock + 1)

structure EngineEnv where
  registry : HandlerRegistry
  client : StackStormClient
  instance_id : String

/-- The fresh `TrackedAlert` the engine creates on the first firing
observation of a fingerprint. -/
def new_tracked_alert (env : EngineEnv) (alert : Alert) (now : Nat) : TrackedAlert :=
  { fingerprint := alert.fingerprint
    alertname := alert.alertname
    instance_of := some alert.instance_of
    severity := some alert.severity
    labels := alert.labels
    annotations := alert.annotations
    status := AlertTrackingStatus.RECEIVED
    received_at := now
    status_changed_at := now
    resolved_at := none
    remediation_attempts := []
    total_attempts := 0
    successful_attempts := 0
    failed_attempts := 0
    processed_by := some env.instance_id
    last_error := none }

/-- Source `RemediationEngine._execute_action`: submit the action, await its
terminal state when a timeout is configured (fire-and-forget otherwise),
convert every raised error into a failed attempt, and in `finally` stamp
the completion time, fold the attempt into the tracked alert (overwriting
`last_error` on a truthy error) and persist. Returns the updated tracked
alert, store and clock plus the per-action result. -/
def execute_action (env : EngineEnv) (alert : Alert) (action : RemediationAction)
    (tracked : TrackedAlert) (st : MemoryStateStore) (clock : Nat) :
    TrackedAlert × MemoryStateStore × Nat × RemediationResult :=
  let (now, clock) := tick clock
  let result : RemediationResult :=
    { alert_fingerprint := alert.fingerprint
      alert_name := alert.alertname
      action_name := action.name
      status := RemediationStatus.RUNNING
      started_at := now
      completed_at := none
      stackstorm_execution_id := none
      output := []
      error := none }
  let attempt : RemediationAttempt :=
    { action_name := action.name
      stackstorm_action := action.stackstorm_action
      status := "running"
      started_at := now
      completed_at := none
      execution_id := none
      error := none }
  let (result, attempt) :=
    match env.client.execute_action action with
    | Except.error e =>
        ({ result with status := RemediationStatus.FAILED, error := some e.text },
         { attempt with status := "failed", error := some e.text })
    | Except.ok execution_id =>
        let result := { result with stackstorm_execution_id := some execution_id }
        let attempt := { attempt with execution_id := some execution_id }
        if action.timeout > 0 then
          match env.client.wait_for_execution execution_id action.timeout with
          | Except.error e =>
              ({ result with status := RemediationStatus.FAILED, error := some e.text },
               { attempt with status := "failed", error := some e.text })
          | Except.ok fin =>
              if fin.status = "succeeded" then
                ({ result with
                    status := RemediationStatus.SUCCESS
                    output := fin.result_output },
                 { attempt with status := "success" })
              else
                let err := fin.stderr.getD ("Execution " ++ fin.status)
                ({ result with status := RemediationStatus.FAILED, error := some err },
                 { attempt with status := "failed", error := some err })
        else
          ({ result with
              status := RemediationStatus.SUCCESS
              output := [("execution_id", execution_id)] },
           { attempt with status := "success" })
  let (done, clock) := tick clock
  let result := { result with completed_at := some done }
  let attempt := { attempt with completed_at := some done }
  let tracked := tracked.add_remediation_attempt attempt
  let tracked :=
    match result.error with
    | some e => if e ≠ "" then { tracked with last_error := some e } else tracked
    | none => tracked
  (tracked, st.save_alert tracked, clock, result)

/-- The sequential action-execution loop of `process_alert`, persisting
the tracked alert after each attempt and collecting results in order. -/
def execute_all (env : EngineEnv) (alert : Alert) :
    List RemediationAction → TrackedAlert → MemoryStateStore → Nat →
    TrackedAlert × MemoryStateStore × Nat × List RemediationResult
  | [], tracked, st, clock => (tracked, st, clock, [])
  | action :: rest, tracked, st, clock =>
      let (tracked, st, clock, result) := execute_action env alert action tracked st clock
      let (tracked, st, clock, results) := execute_all env alert rest tracked st clock
      (tracked, st, clock, result :: results)

/-- Source `RemediationEngine._handle_resolved_alert`: untracked fingerprints and
already-RESOLVED alerts are no-ops; otherwise stamp RESOLVED and persist.
Always returns an empty result list. -/
def handle_resolved_alert (env : EngineEnv) (st : MemoryStateStore) (clock : Nat)
    (alert : Alert) : MemoryStateStore × Nat × List RemediationResult :=
  match st.get_alert alert.fingerprint with
  | none => (st, clock, [])
  | some tracked =>
      if tracked.status = AlertTrackingStatus.RESOLVED then (st, clock, [])
      else
        let (now, clock) := tick clock
        let tracked := tracked.update_status AlertTrackingStatus.RESOLVED now
        (st.save_alert tracked, clock, [])

/-- The body of `process_alert` that runs inside the acquired lock:
load-or-create the tracked alert, short-circuit on RESOLVED, resolve
actions, and either mark REMEDIATED directly (no actions) or run the
REMEDIATING → execute-all → REMEDIATED sequence. -/
def process_firing_locked (env : EngineEnv) (alert : Alert) (now : Nat)
    (st : MemoryStateStore) (clock : Nat) :
    MemoryStateStore × Nat × List RemediationResult :=
  let (tracked, st) :=
    match st.get_alert alert.fingerprint with
    | none =>
        let t := new_tracked_alert env alert now
        (t, st.save_alert t)
    | some t => (t, st)
  if tracked.status = AlertTrackingStatus.RESOLVED then (st, clock, [])
  else
    let actions := env.registry.get_actions_for_alert alert
    if actions.isEmpty then
      let tracked := tracked.update_status AlertTrackingStatus.REMEDIATED now
      (st.save_alert tracked, clock, [])
    else
      let tracked := tracked.update_status AlertTrackingStatus.REMEDIATING now
      let tracked := { tracked with processed_by := some env.instance_id }
      let st := st.save_alert tracked
      let (tracked, st, clock, results) := execute_all env alert actions tracked st clock
      let (now2, clock) := tick clock
      let tracked := tracked.update_status AlertTrackingStatus.REMEDIATED now2
      (st.save_alert tracked, clock, results)

/-- Source `RemediationEngine.process_alert`: resolved events bypass the lock;
firing events acquire the non-blocking per-fingerprint lock
(`"alert:<fingerprint>"`), return empty immediately when it is not
acquired, and otherwise run the locked body, releasing the lock on exit. -/
def process_alert (env : EngineEnv) (st : MemoryStateStore) (clock : Nat)
    (alert : Alert) : MemoryStateStore × Nat × List RemediationResult :=
  let (now, clock) := tick clock
  if alert.status = AlertStatus.RESOLVED then
    handle_resolved_alert env st clock alert
  else
    let key := "alert:" ++ alert.fingerprint
    let (acquired, st) := lock_enter st key
    if acquired then
      let (st, clock, results) := process_firing_locked env alert now st clock
      (lock_exit st key true, clock, results)
    else
      (lock_exit st key false, clock, [])

/-! ## Invariants -/

/-- The attempt-counter consistency of a tracked alert (spec P3). -/
def counters_consistent (t : TrackedAlert) : Prop :=
  t.total_attempts = t.successful_attempts + t.failed_attempts ∧
  t.total_attempts = t.remediation_attempts.length

/-- Invariant: `resolved_at` is set exactly when the status is RESOLVED. -/
def resolved_invariant (t : TrackedAlert) : Prop :=
  t.resolved_at ≠ none ↔ t.status = AlertTrackingStatus.RESOLVED

/-- Every tracked alert stored in an alert table satisfies
`resolved_invariant`. -/
def store_invariant (d : List (String × TrackedAlert)) : Prop :=
  ∀ fp t, dictGet d fp = some t → resolved_invariant t

/-! ## Claim C1 -/

/-- A tracked alert as the engine would create it (consistent zero
counters), used as the C1 starting point. -/
def c1_fresh : TrackedAlert :=
  { fingerprint := "fp1"
    alertname := "HighCPU"
    instance_of := some "server1:9090"
    severity := some "critical"
    labels := []
    annotations := []
    status := AlertTrackingStatus.RECEIVED
    received_at := 0
    status_changed_at := 0
    resolved_at := none
    remediation_attempts := []
    total_attempts := 0
    successful_attempts := 0
    failed_attempts := 0
    processed_by := none
    last_error := none }

/-- An attempt recorded with the in-flight status `"running"` (a status
the model itself documents as legal for `RemediationAttempt`). -/
def c1_running_attempt : RemediationAttempt :=
  { action_name := "restart_service"
    stackstorm_action := "core.restart"
    status := "running"
    started_at := 0
    completed_at := none
    execution_id := none
    error := none }

/-- C1 is false as stated: adding a `"running"` attempt to a fresh tracked
alert bumps `total_attempts` but neither `successful_attempts` nor
`failed_attempts`, so `total_attempts = successful_attempts +
failed_attempts` fails after this one-call sequence. -/
theorem c1_counterexample :
    ¬ ((c1_fresh.add_remediation_attempt c1_running_attempt).total_attempts =
          (c1_fresh.add_remediation_attempt c1_running_attempt).successful_attempts +
            (c1_fresh.add_remediation_attempt c1_running_attempt).failed_attempts ∧
        (c1_fresh.add_remediation_attempt c1_running_attempt).total_attempts =
          (c1_fresh.add_remediation_attempt c1_running_attempt).remediation_attempts.length) := by
  decide

theorem total_eq_length_foldl (attempts : List RemediationAttempt) (t : TrackedAlert)
    (h0 : t.total_attempts = t.remediation_attempts.length) :
    (attempts.foldl TrackedAlert.add_remediation_attempt t).total_attempts =
      (attempts.foldl TrackedAlert.add_remediation_attempt t).remediation_attempts.length := by
  induction attempts generalizing t with
  | nil => exact h0
  | cons a rest ih =>
      exact ih (t.add_remediation_attempt a)
        (by simp [TrackedAlert.add_remediation_attempt, h0])

theorem total_eq_sum_foldl (attempts : List RemediationAttempt) (t : TrackedAlert)
    (h0 : t.total_attempts = t.successful_attempts + t.failed_attempts)
    (hall : ∀ a ∈ attempts, a.status = "success" ∨ a.status = "failed") :
    (attempts.foldl TrackedAlert.add_remediation_attempt t).total_attempts =
      (attempts.foldl TrackedAlert.add_remediation_attempt t).successful_attempts +
        (attempts.foldl TrackedAlert.add_remediation_attempt t).failed_attempts := by
  induction attempts generalizing t with
  | nil => exact h0
  | cons a rest ih =>
      have h1 : (t.add_remediation_attempt a).total_attempts =
          (t.add_remediation_attempt a).successful_attempts +
            (t.add_remediation_attempt a).failed_attempts := by
        rcases hall a (List.mem_cons_self a rest) with hs | hs
        · simp [TrackedAlert.add_remediation_attempt, hs, h0, Nat.add_assoc,
            Nat.add_comm, Nat.add_left_comm]
        · have hne : a.status ≠ "success" := by simp [hs]
          simp [TrackedAlert.add_remediation_attempt, hne, hs, h0, Nat.add_assoc]
      exact ih (t.add_remediation_attempt a) h1
        (fun b hb => hall b (List.mem_cons_of_mem a hb))

/-- C1 (amended): starting from a tracked alert whose counters agree with
its attempt sequence (as every engine-created one does), any sequence of
`add_remediation_attempt` calls keeps `total_attempts` equal to the length
of `remediation_attempts`; and when every added attempt carries status
`"success"` or `"failed"` (the only statuses the engine ever records),
`total_attempts` also equals `successful_attempts + failed_attempts`. -/
theorem c1_attempt_counters (t : TrackedAlert) (attempts : List RemediationAttempt)
    (h0 : counters_consistent t) :
    (attempts.foldl TrackedAlert.add_remediation_attempt t).total_attempts =
        (attempts.foldl TrackedAlert.add_remediation_attempt t).remediation_attempts.length ∧
    ((∀ a ∈ attempts, a.status = "success" ∨ a.status = "failed") →
      (attempts.foldl TrackedAlert.add_remediation_attempt t).total_attempts =
        (attempts.foldl TrackedAlert.add_remediation_attempt t).successful_attempts +
          (attempts.foldl TrackedAlert.add_remediation_attempt t).failed_attempts) :=
  ⟨total_eq_length_foldl attempts t h0.2,
   fun hall => total_eq_sum_foldl attempts t h0.1 hall⟩

def c1_success_attempt : RemediationAttempt :=
  { action_name := "restart_service"
    stackstorm_action := "core.restart"
    status := "success"
    started_at := 1
    completed_at := some 2
    execution_id := some "e1"
    error := none }

def c1_failed_attempt : RemediationAttempt :=
  { action_name := "clear_cache"
    stackstorm_action := "core.clear"
    status := "failed"
    started_at := 3
    completed_at := some 4
    execution_id := some "e2"
    error := some "boom" }

/-- C1 witness: the amended counter invariant evaluated on a fresh tracked
alert receiving one successful and one failed attempt. -/
theorem c1_attempt_counters_witness :
    (([c1_success_attempt, c1_failed_attempt].foldl
        TrackedAlert.add_remediation_attempt c1_fresh).total_attempts =
      ([c1_success_attempt, c1_failed_attempt].foldl
        TrackedAlert.add_remediation_attempt c1_fresh).remediation_attempts.length) ∧
    (([c1_success_attempt, c1_failed_attempt].foldl
        TrackedAlert.add_remediation_attempt c1_fresh).total_attempts =
      ([c1_success_attempt, c1_failed_attempt].foldl
          TrackedAlert.add_remediation_attempt c1_fresh).successful_attempts +
        ([c1_success_attempt, c1_failed_attempt].foldl
          TrackedAlert.add_remediation_attempt c1_fresh).failed_attempts) :=
  ⟨(c1_attempt_counters c1_fresh [c1_success_attempt, c1_failed_attempt]
      ⟨by decide, by decide⟩).1,
   (c1_attempt_counters c1_fresh [c1_success_attempt, c1_failed_attempt]
      ⟨by decide, by decide⟩).2 (by decide)⟩

/-! ## Claims C2 and C3: shared concrete fixtures -/

/-- A job client that always rejects submissions (the claims below never
reach it; any client works). -/
def trivial_client : StackStormClient :=
  { execute_action := fun _ => Except.error (ExecErr.stackstorm "unavailable")
    wait_for_execution := fun _ _ => Except.error (ExecErr.stackstorm "unavailable") }

def sample_registry : HandlerRegistry :=
  { handlers := [YAMLConfigHandler], mappings := [] }

def sample_env : EngineEnv :=
  { registry := sample_registry, client := trivial_client, instance_id := "instance-1" }

def firing_alert : Alert :=
  { status := AlertStatus.FIRING
    labels := [("alertname", "HighCPU"), ("severity", "critical"),
               ("instance", "server1:9090")]
    annotations := []
    starts_at := 0
    ends_at := 0
    generator_url := ""
    fingerprint := "fp1" }

/-! ## Claim C2 -/

/-- C2: when the lock for `"alert:<fingerprint>"` is already held, a
firing alert's `process_alert` returns the empty result list at once and
leaves the whole state store (alert table and locks) untouched; the
outcome is an ordinary return, not an error. -/
theorem c2_lock_not_acquired (env : EngineEnv) (st : MemoryStateStore) (clock : Nat)
    (alert : Alert) (hfiring : alert.status = AlertStatus.FIRING)
    (hlocked : st.locks.contains ("alert:" ++ alert.fingerprint) = true) :
    process_alert env st clock alert = (st, clock + 1, []) := by
  have hmem : ("alert:" ++ alert.fingerprint) ∈ st.locks := by
    simpa using hlocked
  simp [process_alert, tick, hfiring, lock_enter, hmem, lock_exit]

def c2_locked_store : MemoryStateStore :=
  { alerts := [], locks := ["alert:fp1"] }

/-- C2 witness: the contended-lock skip evaluated at a concrete store
holding the fingerprint's lock. -/
theorem c2_lock_not_acquired_witness :
    firing_alert.status = AlertStatus.FIRING ∧
    c2_locked_store.locks.contains ("alert:" ++ firing_alert.fingerprint) = true ∧
    process_alert sample_env c2_locked_store 0 firing_alert = (c2_locked_store, 1, []) :=
  ⟨rfl, by decide,
   c2_lock_not_acquired sample_env c2_locked_store 0 firing_alert rfl (by decide)⟩

/-! ## Claim C3 -/

/-- C3: a firing alert whose tracked record is already RESOLVED is skipped
under the lock — `process_alert` returns the empty result list, executes
no actions, and leaves the store exactly as it was (the stored record and
its RESOLVED status included); the lock is released on exit. -/
theorem c3_resolved_terminal (env : EngineEnv) (st : MemoryStateStore) (clock : Nat)
    (alert : Alert) (tracked : TrackedAlert)
    (hfiring : alert.status = AlertStatus.FIRING)
    (hfree : st.locks.contains ("alert:" ++ alert.fingerprint) = false)
    (htracked : st.get_alert alert.fingerprint = some tracked)
    (hres : tracked.status = AlertTrackingStatus.RESOLVED) :
    process_alert env st clock alert = (st, clock + 1, []) := by
  have hnot : ("alert:" ++ alert.fingerprint) ∉ st.locks := by
    simpa using hfree
  have ht : dictGet st.alerts alert.fingerprint = some tracked := htracked
  simp [process_alert, tick, hfiring, lock_enter, hnot, process_firing_locked,
    MemoryStateStore.get_alert, ht, hres, lock_exit, List.erase_cons_head]

def c3_resolved_tracked : TrackedAlert :=
  { fingerprint := "fp1"
    alertname := "HighCPU"
    instance_of := some "server1:9090"
    severity := some "critical"
    labels := [("alertname", "HighCPU")]
    annotations := []
    status := AlertTrackingStatus.RESOLVED
    received_at := 0
    status_changed_at := 4
    resolved_at := some 4
    remediation_attempts := []
    total_attempts := 0
    successful_attempts := 0
    failed_attempts := 0
    processed_by := some "instance-1"
    last_error := none }

def c3_store : MemoryStateStore :=
  { alerts := [("fp1", c3_resolved_tracked)], locks := [] }

/-- C3 witness: the already-resolved skip evaluated at a concrete store
holding a RESOLVED record for the firing alert's fingerprint. -/
theorem c3_resolved_terminal_witness :
    firing_alert.status = AlertStatus.FIRING ∧
    c3_store.locks.contains ("alert:" ++ firing_alert.fingerprint) = false ∧
    c3_store.get_alert firing_alert.fingerprint = some c3_resolved_tracked ∧
    c3_resolved_tracked.status = AlertTrackingStatus.RESOLVED ∧
    process_alert sample_env c3_store 0 firing_alert = (c3_store, 1, []) :=
  ⟨rfl, by decide, by decide, rfl,
   c3_resolved_terminal sample_env c3_store 0 firing_alert c3_resolved_tracked rfl
     (by decide) (by decide) rfl⟩

/-! ## Claim C4 -/

/-- The store keys every record by its own fingerprint — `save_alert`
always writes under `alert.fingerprint`, so real stores satisfy this. -/
def well_keyed (d : List (String × TrackedAlert)) : Prop :=
  ∀ fp t, dictGet d fp = some t → t.fingerprint = fp

theorem update_status_fingerprint (t : TrackedAlert) (s : AlertTrackingStatus) (ts : Nat) :
    (t.update_status s ts).fingerprint = t.fingerprint := rfl

theorem update_status_status (t : TrackedAlert) (s : AlertTrackingStatus) (ts : Nat) :
    (t.update_status s ts).status = s := rfl

/-- C4: processing a resolved event is idempotent. The first call returns
no results and rewrites the fingerprint's record (if any) to RESOLVED —
stamping `resolved_at` with the first call's timestamp — unless it was
already RESOLVED, in which case (and in the untracked case) the store is
untouched. The second call also returns no results and changes the store
not at all (no persist, `resolved_at` keeps the first call's stamp). -/
theorem c4_idempotent_resolve (env : EngineEnv) (st : MemoryStateStore) (clock : Nat)
    (alert : Alert) (hres : alert.status = AlertStatus.RESOLVED)
    (hwk : ∀ t, st.get_alert alert.fingerprint = some t →
      t.fingerprint = alert.fingerprint) :
    (process_alert env st clock alert).2.2 = [] ∧
    (process_alert env (process_alert env st clock alert).1
        (process_alert env st clock alert).2.1 alert).2.2 = [] ∧
    (process_alert env (process_alert env st clock alert).1
        (process_alert env st clock alert).2.1 alert).1 =
      (process_alert env st clock alert).1 ∧
    (st.get_alert alert.fingerprint = none → (process_alert env st clock alert).1 = st) ∧
    (process_alert env st clock alert).1.get_alert alert.fingerprint =
      (st.get_alert alert.fingerprint).map
        (fun t => if t.status = AlertTrackingStatus.RESOLVED then t
          else t.update_status AlertTrackingStatus.RESOLVED (clock + 1)) := by
  have hp : ∀ st2 c2, process_alert env st2 c2 alert =
      handle_resolved_alert env st2 (c2 + 1) alert := by
    intro st2 c2
    simp [process_alert, tick, hres]
  cases h : st.get_alert alert.fingerprint with
  | none =>
      have h1 : ∀ c, handle_resolved_alert env st c alert = (st, c, []) := by
        intro c
        simp [handle_resolved_alert, h]
      simp [hp, h1, h]
  | some t =>
      by_cases hrt : t.status = AlertTrackingStatus.RESOLVED
      · have h1 : ∀ c, handle_resolved_alert env st c alert = (st, c, []) := by
          intro c
          simp [handle_resolved_alert, h, hrt]
        simp [hp, h1, h, hrt]
      · have hfp : t.fingerprint = alert.fingerprint := hwk t h
        have h1 : handle_resolved_alert env st (clock + 1) alert =
            (st.save_alert (t.update_status AlertTrackingStatus.RESOLVED (clock + 1)),
             clock + 2, []) := by
          simp [handle_resolved_alert, h, hrt, tick]
        have hget : (st.save_alert
            (t.update_status AlertTrackingStatus.RESOLVED (clock + 1))).get_alert
              alert.fingerprint =
            some (t.update_status AlertTrackingStatus.RESOLVED (clock + 1)) := by
          simp [MemoryStateStore.save_alert, MemoryStateStore.get_alert,
            update_status_fingerprint, hfp, dictGet_dictInsert_self]
        have h2 : ∀ c, handle_resolved_alert env
            (st.save_alert (t.update_status AlertTrackingStatus.RESOLVED (clock + 1)))
            c alert =
            (st.save_alert (t.update_status AlertTrackingStatus.RESOLVED (clock + 1)),
             c, []) := by
          intro c
          simp only [handle_resolved_alert, hget, update_status_status]
          simp
        refine ⟨?_, ?_, ?_, ?_, ?_⟩
        · simp [hp, h1]
        · simp only [hp, h1]
          simp [h2]
        · simp only [hp, h1]
          simp [h2]
        · intro hnone
          exact absurd hnone (by simp)
        · simp only [hp, h1]
          simp [hget, h, hrt]

def resolved_alert : Alert :=
  { status := AlertStatus.RESOLVED
    labels := [("alertname", "HighCPU"), ("severity", "critical"),
               ("instance", "server1:9090")]
    annotations := []
    starts_at := 0
    ends_at := 5
    generator_url := ""
    fingerprint := "fp1" }

def c4_tracked : TrackedAlert :=
  { fingerprint := "fp1"
    alertname := "HighCPU"
    instance_of := some "server1:9090"
    severity := some "critical"
    labels := [("alertname", "HighCPU")]
    annotations := []
    status := AlertTrackingStatus.REMEDIATED
    received_at := 0
    status_changed_at := 2
    resolved_at := none
    remediation_attempts := []
    total_attempts := 0
    successful_attempts := 0
    failed_attempts := 0
    processed_by := some "instance-1"
    last_error := none }

def c4_store : MemoryStateStore :=
  { alerts := [("fp1", c4_tracked)], locks := [] }

/-- C4 witness: idempotent resolve evaluated at a concrete store holding a
REMEDIATED record for the resolved alert's fingerprint. -/
theorem c4_idempotent_resolve_witness :
    resolved_alert.status = AlertStatus.RESOLVED ∧
    ((process_alert sample_env c4_store 0 resolved_alert).2.2 = [] ∧
     (process_alert sample_env (process_alert sample_env c4_store 0 resolved_alert).1
         (process_alert sample_env c4_store 0 resolved_alert).2.1 resolved_alert).2.2 = [] ∧
     (process_alert sample_env (process_alert sample_env c4_store 0 resolved_alert).1
         (process_alert sample_env c4_store 0 resolved_alert).2.1 resolved_alert).1 =
       (process_alert sample_env c4_store 0 resolved_alert).1 ∧
     (c4_store.get_alert resolved_alert.fingerprint = none →
       (process_alert sample_env c4_store 0 resolved_alert).1 = c4_store) ∧
     (process_alert sample_env c4_store 0 resolved_alert).1.get_alert
         resolved_alert.fingerprint =
       (c4_store.get_alert resolved_alert.fingerprint).map
         (fun t => if t.status = AlertTrackingStatus.RESOLVED then t
           else t.update_status AlertTrackingStatus.RESOLVED (0 + 1))) :=
  ⟨rfl,
   c4_idempotent_resolve sample_env c4_store 0 resolved_alert rfl
     (by
       intro t ht
       have h2 : c4_store.get_alert resolved_alert.fingerprint = some c4_tracked := rfl
       rw [h2] at ht
       cases Option.some.inj ht
       rfl)⟩

/-! ## Claim C8 -/

/-- C8: when the registry resolves no actions for a firing alert (and the
lock is free and the fingerprint is not already RESOLVED — the paths
already covered by C2 and C3), `process_alert` stamps the tracked alert
REMEDIATED and persists it, records no remediation attempts (the attempt
sequence and total stay what they were — empty/zero for a fresh alert),
returns the empty result list, and releases the lock. -/
theorem c8_no_action_path (env : EngineEnv) (st : MemoryStateStore) (clock : Nat)
    (alert : Alert) (hfiring : alert.status = AlertStatus.FIRING)
    (hfree : st.locks.contains ("alert:" ++ alert.fingerprint) = false)
    (hnoact : env.registry.get_actions_for_alert alert = [])
    (hwk : ∀ t, st.get_alert alert.fingerprint = some t →
      t.fingerprint = alert.fingerprint)
    (hnres : ∀ t, st.get_alert alert.fingerprint = some t →
      t.status ≠ AlertTrackingStatus.RESOLVED) :
    (process_alert env st clock alert).2.2 = [] ∧
    (process_alert env st clock alert).1.locks = st.locks ∧
    (process_alert env st clock alert).1.get_alert alert.fingerprint =
      some (((st.get_alert alert.fingerprint).getD
          (new_tracked_alert env alert clock)).update_status
        AlertTrackingStatus.REMEDIATED clock) ∧
    (((st.get_alert alert.fingerprint).getD
        (new_tracked_alert env alert clock)).update_status
      AlertTrackingStatus.REMEDIATED clock).status = AlertTrackingStatus.REMEDIATED ∧
    (((st.get_alert alert.fingerprint).getD
        (new_tracked_alert env alert clock)).update_status
      AlertTrackingStatus.REMEDIATED clock).remediation_attempts =
      ((st.get_alert alert.fingerprint).map TrackedAlert.remediation_attempts).getD [] ∧
    (((st.get_alert alert.fingerprint).getD
        (new_tracked_alert env alert clock)).update_status
      AlertTrackingStatus.REMEDIATED clock).total_attempts =
      ((st.get_alert alert.fingerprint).map TrackedAlert.total_attempts).getD 0 := by
  have hnot : ("alert:" ++ alert.fingerprint) ∉ st.locks := by
    simpa using hfree
  cases h : st.get_alert alert.fingerprint with
  | none =>
      have ht : dictGet st.alerts alert.fingerprint = none := h
      have hfp : (new_tracked_alert env alert clock).fingerprint = alert.fingerprint := rfl
      simp [process_alert, tick, hfiring, lock_enter, hnot, process_firing_locked,
        MemoryStateStore.get_alert, MemoryStateStore.save_alert, ht, hnoact,
        new_tracked_alert, TrackedAlert.update_status, lock_exit, List.erase_cons_head,
        dictGet_dictInsert_self]
  | some t =>
      have ht : dictGet st.alerts alert.fingerprint = some t := h
      have hrt : t.status ≠ AlertTrackingStatus.RESOLVED := hnres t h
      have hfp : t.fingerprint = alert.fingerprint := hwk t h
      have hfin : (t.update_status AlertTrackingStatus.REMEDIATED clock).fingerprint =
          alert.fingerprint := by
        rw [update_status_fingerprint, hfp]
      have hmain : process_alert env st clock alert =
          ({ alerts := dictInsert st.alerts
               (t.update_status AlertTrackingStatus.REMEDIATED clock).fingerprint
               (t.update_status AlertTrackingStatus.REMEDIATED clock),
             locks := st.locks }, clock + 1, []) := by
        simp [process_alert, tick, hfiring, lock_enter, hnot, process_firing_locked,
          MemoryStateStore.get_alert, MemoryStateStore.save_alert, ht, hrt, hnoact,
          lock_exit, List.erase_cons_head]
      rw [hmain]
      refine ⟨rfl, rfl, ?_, rfl, ?_, ?_⟩
      · simp only [MemoryStateStore.get_alert, hfin, h, Option.getD_some]
        exact dictGet_dictInsert_self st.alerts alert.fingerprint
          (t.update_status AlertTrackingStatus.REMEDIATED clock)
      · simp [TrackedAlert.update_status, h]
      · simp [TrackedAlert.update_status, h]

def c8_store : MemoryStateStore :=
  { alerts := [], locks := [] }

/-- C8 witness: the no-action path evaluated at an empty store with a
registry that resolves no actions for the firing alert. -/
theorem c8_no_action_path_witness :
    firing_alert.status = AlertStatus.FIRING ∧
    c8_store.locks.contains ("alert:" ++ firing_alert.fingerprint) = false ∧
    sample_env.registry.get_actions_for_alert firing_alert = [] ∧
    ((process_alert sample_env c8_store 0 firing_alert).2.2 = [] ∧
     (process_alert sample_env c8_store 0 firing_alert).1.locks = c8_store.locks ∧
     (process_alert sample_env c8_store 0 firing_alert).1.get_alert
         firing_alert.fingerprint =
       some (((c8_store.get_alert firing_alert.fingerprint).getD
           (new_tracked_alert sample_env firing_alert 0)).update_status
         AlertTrackingStatus.REMEDIATED 0) ∧
     (((c8_store.get_alert firing_alert.fingerprint).getD
         (new_tracked_alert sample_env firing_alert 0)).update_status
       AlertTrackingStatus.REMEDIATED 0).status = AlertTrackingStatus.REMEDIATED ∧
     (((c8_store.get_alert firing_alert.fingerprint).getD
         (new_tracked_alert sample_env firing_alert 0)).update_status
       AlertTrackingStatus.REMEDIATED 0).remediation_attempts =
       ((c8_store.get_alert firing_alert.fingerprint).map
         TrackedAlert.remediation_attempts).getD [] ∧
     (((c8_store.get_alert firing_alert.fingerprint).getD
         (new_tracked_alert sample_env firing_alert 0)).update_status
       AlertTrackingStatus.REMEDIATED 0).total_attempts =
       ((c8_store.get_alert firing_alert.fingerprint).map
         TrackedAlert.total_attempts).getD 0) :=
  ⟨rfl, by decide, rfl,
   c8_no_action_path sample_env c8_store 0 firing_alert rfl (by decide) rfl
     (fun t ht => Option.noConfusion ht) (fun t ht => Option.noConfusion ht)⟩

/-! ## Claim C5 -/

/-- C5: the registry's resolved action list equals the spec's composition:
the mapped handler's actions (only when a static mapping exists and that
handler reports `can_handle`), followed by the actions of every probed
handler that reports `can_handle`, where probing walks the registered
handlers in registration order, skips the configuration-driven
`yaml_config` handler (so it is never invoked twice), concatenates the
per-handler action lists, and never deduplicates same-named actions. -/
theorem c5_resolution_order (reg : HandlerRegistry) (alert : Alert) :
    reg.get_actions_for_alert alert = spec_resolution_actions reg alert := by
  unfold HandlerRegistry.get_actions_for_alert spec_resolution_actions
    HandlerRegistry.find_handlers
  rw [foldl_extend_actions, List.nil_append, List.foldr_append, probe_handlers_actions]
  cases hm : reg.get_mapping alert.alertname with
  | none => simp
  | some mapping =>
      cases hh : reg.get_handler (mapping.handler.getD "yaml_config") with
      | none => simp [hh]
      | some h =>
          by_cases hch : h.can_handle { alert := alert, config := mapping } = true
          · simp [hh, hch]
          · simp [hh, hch]

/-! ## Claim C6 -/

/-- C6: the scoped lock yields a boolean holder flag equal to "the key was
not already locked"; on scope exit the lock table is back to its initial
state — the lock is released exactly when this caller acquired it — and
because the body's outcome (normal value or exception) is universally
quantified and never consulted by the exit, the release happens even when
the guarded block throws; a non-acquiring caller's exit changes nothing
(it never releases the lock). Both the in-memory and the Redis
implementation are covered. -/
theorem c6_lock_scope {E α : Type} (st : MemoryStateStore) (key : String)
    (body : Bool → List (String × TrackedAlert) →
      List (String × TrackedAlert) × Except E α)
    (rst : RedisStateStore) (now_iso : String)
    (rbody : Bool → List (String × String) → List (String × String) × Except E α) :
    (lock_enter st key).1 = !(st.is_locked key) ∧
    (with_lock st key body).1.locks = st.locks ∧
    lock_exit st key false = st ∧
    (redis_lock_enter rst key now_iso).1 =
      (dictGet rst.lock_kv (redis_lock_key key)).isNone ∧
    (redis_with_lock rst key now_iso rbody).1.lock_kv = rst.lock_kv ∧
    redis_lock_exit rst key false = rst := by
  refine ⟨?_, ?_, ?_, ?_, ?_, ?_⟩
  · by_cases h : key ∈ st.locks
    · have hc : st.locks.contains key = true := by simpa using h
      simp [lock_enter, MemoryStateStore.is_locked, hc, h]
    · have hc : st.locks.contains key = false := by simpa using h
      simp [lock_enter, MemoryStateStore.is_locked, hc, h]
  · by_cases h : key ∈ st.locks
    · simp [with_lock, lock_enter, h, lock_exit]
    · simp [with_lock, lock_enter, h, lock_exit, List.erase_cons_head]
  · simp [lock_exit]
  · cases h : dictGet rst.lock_kv (redis_lock_key key) with
    | none => simp [redis_lock_enter, h]
    | some v => simp [redis_lock_enter, h]
  · cases h : dictGet rst.lock_kv (redis_lock_key key) with
    | none =>
        simp [redis_with_lock, redis_lock_enter, h, redis_lock_exit,
          dictErase_dictInsert_of_none rst.lock_kv (redis_lock_key key) now_iso h]
    | some v => simp [redis_with_lock, redis_lock_enter, h, redis_lock_exit]
  · simp [redis_lock_exit]

/-! ## Claim C7 -/

theorem yaml_actions_from_filter (ctx : HandlerContext) (l : List ActionConfig) :
    yaml_actions_from ctx l =
      (l.filter (fun a => check_conditions ctx.alert a)).map (yaml_build_action ctx) := by
  induction l with
  | nil => simp [yaml_actions_from]
  | cons ac rest ih =>
      by_cases h : check_conditions ctx.alert ac = true
      · simp [yaml_actions_from, h, ih]
      · simp [yaml_actions_from, h, ih]

/-- C7: an action configured with `conditions.severity = "critical"` (and
no other condition) fails the condition check when the alert's severity
label is `"warning"` and passes it when the label is `"critical"`; the
produced action list is exactly the condition-passing entries, built in
order — an entry with unmet conditions is silently dropped and the
remaining entries are still produced, never an error. -/
theorem c7_condition_filtering (alert : Alert) (cfg : MappingConfig) (ac : ActionConfig)
    (hc : ac.conditions = some { severity := some (SeverityCond.single "critical"),
                                 labels := none, has_labels := none }) :
    (dictGet alert.labels "severity" = some "warning" →
      check_conditions alert ac = false) ∧
    (dictGet alert.labels "severity" = some "critical" →
      check_conditions alert ac = true) ∧
    yaml_get_actions { alert := alert, config := cfg } =
      (cfg.actions.filter (fun a => check_conditions alert a)).map
        (yaml_build_action { alert := alert, config := cfg }) := by
  refine ⟨?_, ?_, ?_⟩
  · intro hsev
    simp [check_conditions, hc, SeverityCond.allowed, Alert.severity, hsev]
  · intro hsev
    simp [check_conditions, hc, SeverityCond.allowed, Alert.severity, hsev]
  · exact yaml_actions_from_filter { alert := alert, config := cfg } cfg.actions

def c7_action_config : ActionConfig :=
  { name := some "restart_nginx"
    action := "core.restart"
    description := some "Restart nginx"
    parameters := [("service", PValue.str "nginx")]
    timeout := some 60
    retry_count := none
    retry_delay := none
    conditions := some { severity := some (SeverityCond.single "critical"),
                         labels := none, has_labels := none } }

def c7_other_config : ActionConfig :=
  { name := some "collect_diagnostics"
    action := "core.diag"
    description := none
    parameters := []
    timeout := none
    retry_count := none
    retry_delay := none
    conditions := none }

def c7_mapping : MappingConfig :=
  { handler := some "yaml_config"
    actions := [c7_action_config, c7_other_config] }

def warning_alert : Alert :=
  { status := AlertStatus.FIRING
    labels := [("alertname", "HighCPU"), ("severity", "warning"),
               ("instance", "server1:9090")]
    annotations := []
    starts_at := 0
    ends_at := 0
    generator_url := ""
    fingerprint := "fp2" }

/-- C7 witness: the severity condition evaluated on concrete warning and
critical alerts against a two-action configuration. -/
theorem c7_condition_filtering_witness :
    check_conditions warning_alert c7_action_config = false ∧
    check_conditions firing_alert c7_action_config = true ∧
    yaml_get_actions { alert := warning_alert, config := c7_mapping } =
      (c7_mapping.actions.filter (fun a => check_conditions warning_alert a)).map
        (yaml_build_action { alert := warning_alert, config := c7_mapping }) :=
  ⟨(c7_condition_filtering warning_alert c7_mapping c7_action_config rfl).1 rfl,
   (c7_condition_filtering firing_alert c7_mapping c7_action_config rfl).2.1 rfl,
   (c7_condition_filtering warning_alert c7_mapping c7_action_config rfl).2.2⟩

/-! ## Claim C10 -/

theorem dictGet_dictUpdate_build (d : List (String × PValue)) (ctx : HandlerContext)
    (k : String) (v : PValue) (h : (k, v) ∈ build_parameters ctx) :
    dictGet (dictUpdate d (build_parameters ctx)) k = some v := by
  have hexp : dictUpdate d (build_parameters ctx) =
      dictInsert (dictInsert (dictInsert (dictInsert (dictInsert d
        "alert_name" (PValue.str ctx.alert.alertname))
        "alert_labels" (PValue.table ctx.alert.labels))
        "alert_annotations" (PValue.table ctx.alert.annotations))
        "instance" (PValue.str ctx.alert.instance_of))
        "severity" (PValue.str ctx.alert.severity) := rfl
  rw [hexp]
  simp only [build_parameters, List.mem_cons, List.not_mem_nil, or_false] at h
  rcases h with h | h | h | h | h <;>
    (injection h with hk hv; subst hk; subst hv)
  · rw [dictGet_dictInsert_ne _ _ _ _ (by decide), dictGet_dictInsert_ne _ _ _ _ (by decide),
      dictGet_dictInsert_ne _ _ _ _ (by decide), dictGet_dictInsert_ne _ _ _ _ (by decide),
      dictGet_dictInsert_self]
  · rw [dictGet_dictInsert_ne _ _ _ _ (by decide), dictGet_dictInsert_ne _ _ _ _ (by decide),
      dictGet_dictInsert_ne _ _ _ _ (by decide), dictGet_dictInsert_self]
  · rw [dictGet_dictInsert_ne _ _ _ _ (by decide), dictGet_dictInsert_ne _ _ _ _ (by decide),
      dictGet_dictInsert_self]
  · rw [dictGet_dictInsert_ne _ _ _ _ (by decide), dictGet_dictInsert_self]
  · rw [dictGet_dictInsert_self]

/-- C10: `YAMLConfigHandler.get_actions` merges the standard context
parameters built by `build_parameters` after the action's configured
parameters, so for every configured parameter sharing one of the five
context keys (`alert_name`, `alert_labels`, `alert_annotations`,
`instance`, `severity`) the built value — template pass included —
overwrites the configured value in the resulting `RemediationAction`. -/
theorem c10_context_params_override (ctx : HandlerContext) (ac : ActionConfig)
    (k : String) (v w : PValue)
    (hbp : (k, v) ∈ build_parameters ctx)
    (hcfg : dictGet ac.parameters k = some w) :
    dictGet (yaml_build_action ctx ac).parameters k = some (template_value ctx.alert v) := by
  show dictGet (apply_templates ctx.alert (dictUpdate ac.parameters (build_parameters ctx)))
      k = some (template_value ctx.alert v)
  rw [dictGet_apply_templates, dictGet_dictUpdate_build ac.parameters ctx k v hbp,
    Option.map_some']

def c10_action_config : ActionConfig :=
  { name := some "notify"
    action := "core.notify"
    description := none
    parameters := [("severity", PValue.str "low"), ("channel", PValue.str "ops")]
    timeout := none
    retry_count := none
    retry_delay := none
    conditions := none }

/-- C10 witness: a configured `severity` parameter is overwritten by the
alert-context value in the built action. -/
theorem c10_context_params_override_witness :
    ("severity", PValue.str firing_alert.severity) ∈
      build_parameters { alert := firing_alert, config := c7_mapping } ∧
    dictGet c10_action_config.parameters "severity" = some (PValue.str "low") ∧
    dictGet (yaml_build_action { alert := firing_alert, config := c7_mapping }
        c10_action_config).parameters "severity" =
      some (template_value firing_alert (PValue.str firing_alert.severity)) :=
  ⟨by decide, by decide,
   c10_context_params_override { alert := firing_alert, config := c7_mapping }
     c10_action_config "severity" (PValue.str firing_alert.severity)
     (PValue.str "low") (by decide) (by decide)⟩

/-! ## Claim C9: invariant-preservation lemmas -/

theorem update_status_resolved_at (t : TrackedAlert) (s : AlertTrackingStatus) (ts : Nat) :
    (t.update_status s ts).resolved_at =
      if s = AlertTrackingStatus.RESOLVED then some ts else t.resolved_at := rfl

theorem add_attempt_status (t : TrackedAlert) (a : RemediationAttempt) :
    (t.add_remediation_attempt a).status = t.status := rfl

theorem add_attempt_resolved_at (t : TrackedAlert) (a : RemediationAttempt) :
    (t.add_remediation_attempt a).resolved_at = t.resolved_at := rfl

theorem add_attempt_fingerprint (t : TrackedAlert) (a : RemediationAttempt) :
    (t.add_remediation_attempt a).fingerprint = t.fingerprint := rfl

theorem resolved_invariant_of_fields (t t2 : TrackedAlert) (hs : t2.status = t.status)
    (hr : t2.resolved_at = t.resolved_at) (h : resolved_invariant t) :
    resolved_invariant t2 := by
  unfold resolved_invariant at *
  rw [hs, hr]
  exact h

theorem update_status_resolved_invariant (t : TrackedAlert) (s : AlertTrackingStatus)
    (ts : Nat) (h : resolved_invariant t)
    (hc : s = AlertTrackingStatus.RESOLVED ∨ t.status ≠ AlertTrackingStatus.RESOLVED) :
    resolved_invariant (t.update_status s ts) := by
  unfold resolved_invariant at *
  rw [update_status_status, update_status_resolved_at]
  rcases hc with hc | hc
  · subst hc
    simp
  · have hr : t.resolved_at = none := by
      by_contra hne
      exact hc (h.mp hne)
    by_cases hs : s = AlertTrackingStatus.RESOLVED
    · subst hs
      simp
    · simp [hs, hr]

theorem store_invariant_save (d : List (String × TrackedAlert)) (t : TrackedAlert)
    (hd : store_invariant d) (ht : resolved_invariant t) :
    store_invariant (dictInsert d t.fingerprint t) := by
  intro fp t2 h
  rcases dictGet_dictInsert_cases d t.fingerprint fp t t2 h with h2 | h2
  · rw [h2]
    exact ht
  · exact hd fp t2 h2

theorem new_tracked_alert_resolved_invariant (env : EngineEnv) (alert : Alert) (now : Nat) :
    resolved_invariant (new_tracked_alert env alert now) := by
  simp [resolved_invariant, new_tracked_alert]

theorem execute_action_parts (env : EngineEnv) (alert : Alert)
    (action : RemediationAction) (tracked : TrackedAlert) (st : MemoryStateStore)
    (clock : Nat) :
    ((execute_action env alert action tracked st clock).1.status = tracked.status) ∧
    ((execute_action env alert action tracked st clock).1.resolved_at =
      tracked.resolved_at) ∧
    ((execute_action env alert action tracked st clock).1.fingerprint =
      tracked.fingerprint) ∧
    ((execute_action env alert action tracked st clock).2.1 =
      st.save_alert (execute_action env alert action tracked st clock).1) := by
  unfold execute_action
  cases hx : env.client.execute_action action with
  | error e =>
      by_cases h : e.text = ""
      · simp [tick, hx, h, add_attempt_status, add_attempt_resolved_at,
          add_attempt_fingerprint]
      · simp [tick, hx, h, add_attempt_status, add_attempt_resolved_at,
          add_attempt_fingerprint]
  | ok execution_id =>
      by_cases ht : action.timeout > 0
      · cases hw : env.client.wait_for_execution execution_id action.timeout with
        | error e =>
            by_cases h : e.text = ""
            · simp [tick, hx, ht, hw, h, add_attempt_status, add_attempt_resolved_at,
                add_attempt_fingerprint]
            · simp [tick, hx, ht, hw, h, add_attempt_status, add_attempt_resolved_at,
                add_attempt_fingerprint]
        | ok fin =>
            by_cases hs : fin.status = "succeeded"
            · simp [tick, hx, ht, hw, hs, add_attempt_status, add_attempt_resolved_at,
                add_attempt_fingerprint]
            · by_cases h : fin.stderr.getD ("Execution " ++ fin.status) = ""
              · simp [tick, hx, ht, hw, hs, h, add_attempt_status,
                  add_attempt_resolved_at, add_attempt_fingerprint]
              · simp [tick, hx, ht, hw, hs, h, add_attempt_status,
                  add_attempt_resolved_at, add_attempt_fingerprint]
      · simp [tick, hx, ht, add_attempt_status, add_attempt_resolved_at,
          add_attempt_fingerprint]

theorem execute_all_parts (env : EngineEnv) (alert : Alert) :
    ∀ (actions : List RemediationAction) (tracked : TrackedAlert)
      (st : MemoryStateStore) (clock : Nat),
    ((execute_all env alert actions tracked st clock).1.status = tracked.status) ∧
    ((execute_all env alert actions tracked st clock).1.resolved_at =
      tracked.resolved_at) ∧
    ((execute_all env alert actions tracked st clock).1.fingerprint =
      tracked.fingerprint) ∧
    (store_invariant st.alerts → resolved_invariant tracked →
      store_invariant (execute_all env alert actions tracked st clock).2.1.alerts) ∧
    ((execute_all env alert actions tracked st clock).2.1.locks = st.locks) := by
  intro actions
  induction actions with
  | nil =>
      intro tracked st clock
      exact ⟨rfl, rfl, rfl, fun h _ => h, rfl⟩
  | cons action rest ih =>
      intro tracked st clock
      obtain ⟨h1, h2, h3, h4⟩ := execute_action_parts env alert action tracked st clock
      obtain ⟨g1, g2, g3, g4, g5⟩ := ih (execute_action env alert action tracked st clock).1
        (execute_action env alert action tracked st clock).2.1
        (execute_action env alert action tracked st clock).2.2.1
      refine ⟨?_, ?_, ?_, ?_, ?_⟩
      · rw [execute_all, g1, h1]
      · rw [execute_all, g2, h2]
      · rw [execute_all, g3, h3]
      · intro hst htr
        rw [execute_all]
        refine g4 ?_ ?_
        · rw [h4]
          exact store_invariant_save st.alerts _ hst
            (resolved_invariant_of_fields tracked _ h1 h2 htr)
        · exact resolved_invariant_of_fields tracked _ h1 h2 htr
      · rw [execute_all, g5, h4]
        rfl

theorem save_alert_alerts (st : MemoryStateStore) (t : TrackedAlert) :
    (st.save_alert t).alerts = dictInsert st.alerts t.fingerprint t := rfl

theorem set_processed_by_status (t : TrackedAlert) (p : Option String) :
    ({ t with processed_by := p } : TrackedAlert).status = t.status := rfl

theorem set_processed_by_resolved_at (t : TrackedAlert) (p : Option String) :
    ({ t with processed_by := p } : TrackedAlert).resolved_at = t.resolved_at := rfl

theorem process_firing_locked_store_invariant (env : EngineEnv) (alert : Alert)
    (now : Nat) (st : MemoryStateStore) (clock : Nat)
    (h : store_invariant st.alerts) :
    store_invariant (process_firing_locked env alert now st clock).1.alerts := by
  have haction : ∀ (t1 : TrackedAlert) (st3 : MemoryStateStore) (c : Nat),
      store_invariant st3.alerts → resolved_invariant t1 →
      t1.status = AlertTrackingStatus.REMEDIATING →
      store_invariant
        ((execute_all env alert (env.registry.get_actions_for_alert alert)
            t1 st3 c).2.1.save_alert
          ((execute_all env alert (env.registry.get_actions_for_alert alert)
              t1 st3 c).1.update_status AlertTrackingStatus.REMEDIATED
            (tick (execute_all env alert (env.registry.get_actions_for_alert alert)
              t1 st3 c).2.2.1).1)).alerts := by
    intro t1 st3 c hst3 ht1 hrm
    obtain ⟨g1, g2, g3, g4, g5⟩ :=
      execute_all_parts env alert (env.registry.get_actions_for_alert alert) t1 st3 c
    rw [save_alert_alerts]
    refine store_invariant_save _ _ (g4 hst3 ht1) ?_
    refine update_status_resolved_invariant _ _ _
      (resolved_invariant_of_fields t1 _ g1 g2 ht1) (Or.inr ?_)
    rw [g1, hrm]
    intro hcon
    exact AlertTrackingStatus.noConfusion hcon
  cases hg : st.get_alert alert.fingerprint with
  | none =>
      have hfresh := new_tracked_alert_resolved_invariant env alert now
      have hnres : ¬ (new_tracked_alert env alert now).status =
          AlertTrackingStatus.RESOLVED := by
        simp [new_tracked_alert]
      have hst2 : store_invariant
          ((st.save_alert (new_tracked_alert env alert now)).alerts) := by
        rw [save_alert_alerts]
        exact store_invariant_save _ _ h hfresh
      by_cases hae : (env.registry.get_actions_for_alert alert).isEmpty = true
      · simp only [process_firing_locked, hg, hnres, if_false, hae, if_true]
        rw [save_alert_alerts]
        exact store_invariant_save _ _ hst2
          (update_status_resolved_invariant _ _ _ hfresh (Or.inr hnres))
      · simp only [process_firing_locked, hg, hnres, if_false, hae]
        have hinv1 := resolved_invariant_of_fields _
          ({ (new_tracked_alert env alert now).update_status
              AlertTrackingStatus.REMEDIATING now with
            processed_by := some env.instance_id } : TrackedAlert)
          (set_processed_by_status _ _)
          (set_processed_by_resolved_at _ _)
          (update_status_resolved_invariant _ _ _ hfresh (Or.inr hnres))
        refine haction _ _ _ ?_ hinv1 ?_
        · rw [save_alert_alerts]
          exact store_invariant_save _ _ hst2 hinv1
        · rw [set_processed_by_status, update_status_status]
  | some t =>
      have ht : resolved_invariant t := h alert.fingerprint t hg
      by_cases hres : t.status = AlertTrackingStatus.RESOLVED
      · simp only [process_firing_locked, hg, hres, if_true]
        exact h
      · by_cases hae : (env.registry.get_actions_for_alert alert).isEmpty = true
        · simp only [process_firing_locked, hg, hres, if_false, hae, if_true]
          rw [save_alert_alerts]
          exact store_invariant_save _ _ h
            (update_status_resolved_invariant _ _ _ ht (Or.inr hres))
        · simp only [process_firing_locked, hg, hres, if_false, hae]
          have hinv1 := resolved_invariant_of_fields _
            ({ t.update_status AlertTrackingStatus.REMEDIATING now with
              processed_by := some env.instance_id } : TrackedAlert)
            (set_processed_by_status _ _)
            (set_processed_by_resolved_at _ _)
            (update_status_resolved_invariant _ _ _ ht (Or.inr hres))
          refine haction _ _ _ ?_ hinv1 ?_
          · rw [save_alert_alerts]
            exact store_invariant_save _ _ h hinv1
          · rw [set_processed_by_status, update_status_status]

theorem lock_exit_alerts (st : MemoryStateStore) (key : String) (b : Bool) :
    (lock_exit st key b).alerts = st.alerts := by
  unfold lock_exit
  split <;> rfl

/-- C9 (amended): `update_status` preserves the "resolved_at is set iff
status is RESOLVED" invariant on every transition whose target is RESOLVED
or whose source is not yet RESOLVED — the only transitions the engine
performs, since it short-circuits on RESOLVED records — and consequently
every tracked alert reachable through the engine's `process_alert`
(starting from a store whose records all satisfy the invariant) satisfies
it. The unrestricted claim fails: see the counterexample. -/
theorem c9_resolved_at_invariant :
    (∀ (t : TrackedAlert) (s : AlertTrackingStatus) (ts : Nat),
      resolved_invariant t →
      (s = AlertTrackingStatus.RESOLVED ∨ t.status ≠ AlertTrackingStatus.RESOLVED) →
      resolved_invariant (t.update_status s ts)) ∧
    (∀ (env : EngineEnv) (st : MemoryStateStore) (clock : Nat) (alert : Alert),
      store_invariant st.alerts →
      store_invariant (process_alert env st clock alert).1.alerts) := by
  constructor
  · exact update_status_resolved_invariant
  · intro env st clock alert h
    unfold process_alert
    by_cases hres : alert.status = AlertStatus.RESOLVED
    · simp only [tick, hres, if_true]
      unfold handle_resolved_alert
      cases hg : st.get_alert alert.fingerprint with
      | none => exact h
      | some t =>
          by_cases hts : t.status = AlertTrackingStatus.RESOLVED
          · simp only [hg, hts, if_true]
            exact h
          · simp only [hg, hts, if_false]
            rw [save_alert_alerts]
            exact store_invariant_save _ _ h
              (update_status_resolved_invariant _ _ _ (h _ _ hg) (Or.inl rfl))
    · simp only [tick, hres, if_false]
      by_cases hl : ("alert:" ++ alert.fingerprint) ∈ st.locks
      · have hc : st.locks.contains ("alert:" ++ alert.fingerprint) = true := by
          simpa using hl
        simp only [lock_enter, hc, if_true, Bool.false_eq_true, if_false]
        exact h
      · have hc : st.locks.contains ("alert:" ++ alert.fingerprint) = false := by
          simpa using hl
        have hinv1 : store_invariant
            (process_firing_locked env alert clock
              { st with locks := ("alert:" ++ alert.fingerprint) :: st.locks }
              (clock + 1)).1.alerts :=
          process_firing_locked_store_invariant env alert clock _ (clock + 1) h
        rcases hpfl : process_firing_locked env alert clock
            { st with locks := ("alert:" ++ alert.fingerprint) :: st.locks }
            (clock + 1) with ⟨st4, c4, res4⟩
        rw [hpfl] at hinv1
        simp only [lock_enter, hc, Bool.false_eq_true, if_false, if_true, hpfl,
          lock_exit_alerts]
        exact hinv1

def c9_resolved_record : TrackedAlert :=
  { fingerprint := "fp9"
    alertname := "DiskFull"
    instance_of := some "server2:9090"
    severity := some "warning"
    labels := []
    annotations := []
    status := AlertTrackingStatus.RESOLVED
    received_at := 1
    status_changed_at := 5
    resolved_at := some 5
    remediation_attempts := []
    total_attempts := 0
    successful_attempts := 0
    failed_attempts := 0
    processed_by := none
    last_error := none }

/-- C9 is false as stated for `update_status` on *every* transition: moving
a RESOLVED record (whose `resolved_at` is set, satisfying the invariant)
to REMEDIATED leaves `resolved_at` set while the status is no longer
RESOLVED, breaking the "if and only if". The engine never performs this
transition (it skips RESOLVED records), which is what the amended claim
captures. -/
theorem c9_counterexample :
    resolved_invariant c9_resolved_record ∧
    ¬ resolved_invariant
        (c9_resolved_record.update_status AlertTrackingStatus.REMEDIATED 7) := by
  constructor
  · simp [resolved_invariant, c9_resolved_record]
  · simp [resolved_invariant, TrackedAlert.update_status, c9_resolved_record]

/-- C9 witness: the amended invariant preservation evaluated on a concrete
engine-style transition and a concrete `process_alert` run. -/
theorem c9_resolved_at_invariant_witness :
    resolved_invariant (c4_tracked.update_status AlertTrackingStatus.RESOLVED 3) ∧
    store_invariant (process_alert sample_env c8_store 0 firing_alert).1.alerts :=
  ⟨c9_resolved_at_invariant.1 c4_tracked AlertTrackingStatus.RESOLVED 3
     (by simp [resolved_invariant, c4_tracked]) (Or.inl rfl),
   c9_resolved_at_invariant.2 sample_env c8_store 0 firing_alert
     (fun fp t h2 => Option.noConfusion h2)⟩
